import Mathlib

/-!
A shallow embedding of the openscope command-parsing subsystem:
`CommandParser.js`, `CommandDefinition.js` (the aircraft and system command
maps together with `aliasToRootCommand`), `Command.js` and
`systemCommandMap.js`.

JavaScript runtime values that flow through the parser are modelled by
`JsVal`; thrown JavaScript errors by `JsError` (a `TypeError` raised by the
explicit non-string input check is distinguished from a `TypeError` raised
by a property access on `undefined` and from calling `undefined` as a
function).  Functions that may throw return `Except JsError _`.

The per-command argument validators and parsers
(`ArgumentValidators.js` / `ArgumentParsers.js`) and the numeric helper
`convertStringToNumber` are external to the repository snapshot; where a
proof needs them they are modelled from the spec and marked as such in
their doc comments.  Everything else is translated directly from the
source files.
-/

/-- A JavaScript runtime value, rich enough for the values the parser
pipeline passes around: strings, numbers (`NaN` kept separate), `null`,
`undefined`, booleans and arrays. -/
inductive JsVal where
  | str : String → JsVal
  | num : Int → JsVal
  | nan : JsVal
  | null : JsVal
  | undefined : JsVal
  | bool : Bool → JsVal
  | arr : List JsVal → JsVal

/-- A thrown JavaScript error, as the parser can produce them:
the explicit `throw new TypeError(...)` for non-string input
(`CommandParser.parse`), a `TypeError` from reading a property of
`undefined` (e.g. `undefined.indexOf`, `undefined.parse`), a `TypeError`
from calling `undefined` as a function, and a validation error thrown by
an argument validator. -/
inductive JsError where
  | typeErrorNonStringInput : JsError
  | typeErrorUndefinedAccess : String → JsError
  | typeErrorNotAFunction : String → JsError
  | validationError : String → JsError
deriving DecidableEq, Repr

/-- Lodash `_isString`. -/
def isString : JsVal → Bool
  | .str _ => true
  | _ => false

/-- JavaScript `array[i]`: element at index `i`, or `undefined` when out of
range or when the value is not an array (used for the
`const [parsedArgs, tmp] = ...` destructuring in `_parseAircraftCommand`). -/
def jsIndex : JsVal → Nat → JsVal
  | .arr l, i => l.getD i .undefined
  | _, _ => .undefined

/-- `String.prototype.toLowerCase` on one character, for the ASCII range the
command vocabulary lives in: `A`–`Z` map to `a`–`z`, everything else is
unchanged. -/
def jsToLowerChar (c : Char) : Char :=
  if 'A' ≤ c ∧ c ≤ 'Z' then Char.ofNat (c.toNat + 32) else c

/-- `rawInput.toLowerCase()`: lower-case every character. -/
def jsToLower (s : String) : String :=
  String.mk (s.data.map jsToLowerChar)

/-- JavaScript `String.prototype.split` with the single-character separator
`COMMAND_ARGS_SEPARATOR = ' '`, on the character list of the string:
consecutive separators yield empty segments and the result is never empty. -/
def splitTokens : List Char → List (List Char)
  | [] => [[]]
  | c :: cs =>
    if c = ' ' then
      [] :: splitTokens cs
    else
      match splitTokens cs with
      | t :: ts => (c :: t) :: ts
      | [] => [[c]]

/-- The tokenizer of `CommandParser.parse`:
`rawInput.toLowerCase().split(COMMAND_ARGS_SEPARATOR)`. -/
def tokenize (rawInput : String) : List String :=
  (splitTokens (jsToLower rawInput).data).map String.mk

/-- The argument validators imported by `CommandDefinition.js`.  Their
bodies live in `ArgumentValidators.js`, outside the snapshot; the closed
set of names is taken from the import list. -/
inductive Validator where
  | zeroArgumentsValidator
  | singleArgumentValidator
  | zeroOrOneArgumentValidator
  | altitudeValidator
  | fixValidator
  | headingValidator
  | holdValidator
  | squawkValidator
  | optionalAltitudeValidator
  | crossingValidator
deriving DecidableEq, Repr

/-- The argument parsers a command definition can carry: `noop` and the two
inline arrow functions are defined in `CommandDefinition.js` itself; the
remaining names are imported from `ArgumentParsers.js`, outside the
snapshot. -/
inductive ArgParser where
  | noop
  | altitudeParser
  | headingParser
  | holdParser
  | optionalAltitudeParser
  | crossingParser
  | timewarpParser
  | ilsParse
  | speedParse
  | rateParse
deriving DecidableEq, Repr

/-- One entry of a command map.  JavaScript object fields may be absent
(`transmit: {}` in the system map has neither `validate` nor `parse`, and
no system entry has `aliases`), hence every field is an `Option`. -/
structure CommandDef where
  aliases : Option (List String)
  functionName : Option String
  validate : Option Validator
  parse : Option ArgParser
deriving DecidableEq, Repr

/-- `AIRCRAFT_COMMAND_MAP` from `CommandDefinition.js`, in insertion order
(JavaScript objects preserve the insertion order of string keys, which is
what lodash `_findKey` iterates in). -/
def AIRCRAFT_COMMAND_MAP : List (String × CommandDef) :=
  [ ("abort",
      ⟨some ["abort"], some "runAbort",
       some .zeroArgumentsValidator, some .noop⟩),
    ("altitude",
      ⟨some ["a", "altitude", "c", "climb", "d", "descend"], some "runAltitude",
       some .altitudeValidator, some .altitudeParser⟩),
    ("cancelHold",
      ⟨some ["exithold", "cancelhold", "continue", "nohold", "xh"], some "runCancelHoldingPattern",
       some .zeroOrOneArgumentValidator, some .noop⟩),
    ("clearedAsFiled",
      ⟨some ["caf", "clearedAsFiled"], some "runClearedAsFiled",
       some .zeroArgumentsValidator, some .noop⟩),
    ("climbViaSid",
      ⟨some ["climbViaSid", "cvs"], some "runClimbViaSID",
       some .optionalAltitudeValidator, some .optionalAltitudeParser⟩),
    ("cross",
      ⟨some ["cross", "cr", "x"], some "runCross",
       some .crossingValidator, some .crossingParser⟩),
    ("delete",
      ⟨some ["del", "delete", "kill"], some "runDelete",
       some .zeroArgumentsValidator, some .noop⟩),
    ("descendViaStar",
      ⟨some ["descendViaStar", "dvs"], some "runDescendViaStar",
       some .optionalAltitudeValidator, some .optionalAltitudeParser⟩),
    ("direct",
      ⟨some ["dct", "direct", "pd"], some "runDirect",
       some .singleArgumentValidator, some .noop⟩),
    ("expectArrivalRunway",
      ⟨some ["e"], some "runExpectArrivalRunway",
       some .singleArgumentValidator, some .noop⟩),
    ("fix",
      ⟨some ["f", "fix", "track"], some "runFix",
       some .fixValidator, some .noop⟩),
    ("flyPresentHeading",
      ⟨some ["fph"], some "runFlyPresentHeading",
       some .zeroArgumentsValidator, some .noop⟩),
    ("heading",
      ⟨some ["fh", "h", "heading", "t", "turn"], some "runHeading",
       some .headingValidator, some .headingParser⟩),
    ("hold",
      ⟨some ["hold"], some "runHold",
       some .holdValidator, some .holdParser⟩),
    ("ils",
      ⟨some ["*", "i", "ils"], some "runIls",
       some .singleArgumentValidator, some .ilsParse⟩),
    ("land",
      ⟨some ["land"], some "runLand",
       some .zeroOrOneArgumentValidator, some .noop⟩),
    ("moveDataBlock",
      ⟨some ["`"], some "runMoveDataBlock",
       some .singleArgumentValidator, some .noop⟩),
    ("reroute",
      ⟨some ["reroute", "rr"], some "runReroute",
       some .singleArgumentValidator, some .noop⟩),
    ("route",
      ⟨some ["route"], some "runRoute",
       some .singleArgumentValidator, some .noop⟩),
    ("sayAltitude",
      ⟨some ["sa"], some "runSayAltitude",
       some .zeroArgumentsValidator, some .noop⟩),
    ("sayAssignedAltitude",
      ⟨some ["saa"], some "runSayAssignedAltitude",
       some .zeroArgumentsValidator, some .noop⟩),
    ("sayAssignedHeading",
      ⟨some ["sah"], some "runSayAssignedHeading",
       some .zeroArgumentsValidator, some .noop⟩),
    ("sayAssignedSpeed",
      ⟨some ["sas"], some "runSayAssignedSpeed",
       some .zeroArgumentsValidator, some .noop⟩),
    ("sayHeading",
      ⟨some ["sh"], some "runSayHeading",
       some .zeroArgumentsValidator, some .noop⟩),
    ("sayIndicatedAirspeed",
      ⟨some ["si"], some "runSayIndicatedAirspeed",
       some .zeroArgumentsValidator, some .noop⟩),
    ("sayRoute",
      ⟨some ["sr"], some "runSayRoute",
       some .zeroArgumentsValidator, some .noop⟩),
    ("sid",
      ⟨some ["sid"], some "runSID",
       some .singleArgumentValidator, some .noop⟩),
    ("speed",
      ⟨some ["-", "+", "slow", "sp", "speed"], some "runSpeed",
       some .singleArgumentValidator, some .speedParse⟩),
    ("squawk",
      ⟨some ["sq", "squawk"], some "runSquawk",
       some .squawkValidator, some .noop⟩),
    ("star",
      ⟨some ["star"], some "runSTAR",
       some .singleArgumentValidator, some .noop⟩),
    ("takeoff",
      ⟨some ["cto", "to", "takeoff"], some "runTakeoff",
       some .zeroArgumentsValidator, some .noop⟩),
    ("taxi",
      ⟨some ["taxi", "w", "wait"], some "runTaxi",
       some .zeroOrOneArgumentValidator, some .noop⟩) ]

/-- `SYSTEM_COMMAND_MAP` from `CommandDefinition.js` (the module
`CommandParser.js` imports).  None of its entries defines an `aliases`
field, and `transmit` is the empty object `{}` with neither `validate`
nor `parse`. -/
def SYSTEM_COMMAND_MAP : List (String × CommandDef) :=
  [ ("airac", ⟨none, none, some .zeroArgumentsValidator, some .noop⟩),
    ("airport", ⟨none, none, some .singleArgumentValidator, some .noop⟩),
    ("auto", ⟨none, none, some .zeroArgumentsValidator, some .noop⟩),
    ("clear", ⟨none, none, some .zeroArgumentsValidator, some .noop⟩),
    ("debug", ⟨none, none, some .zeroArgumentsValidator, some .noop⟩),
    ("pause", ⟨none, none, some .zeroArgumentsValidator, some .noop⟩),
    ("rate", ⟨none, none, some .singleArgumentValidator, some .rateParse⟩),
    ("timewarp", ⟨none, none, some .zeroOrOneArgumentValidator, some .timewarpParser⟩),
    ("transmit", ⟨none, none, none, none⟩),
    ("tutorial", ⟨none, none, some .zeroArgumentsValidator, some .noop⟩) ]

/-- `SYSTEM_COMMAND_MAP` from
`definitions/systemCommand/systemCommandMap.js` (the newer duplicate of
the system registry in the same repository).  Its `transmit` entry is also
the empty object `{}`. -/
def SYSTEM_COMMAND_MAP_V2 : List (String × CommandDef) :=
  [ ("airac", ⟨none, none, some .zeroArgumentsValidator, some .noop⟩),
    ("airport", ⟨none, none, some .singleArgumentValidator, some .noop⟩),
    ("auto", ⟨none, none, some .zeroArgumentsValidator, some .noop⟩),
    ("clear", ⟨none, none, some .zeroArgumentsValidator, some .noop⟩),
    ("debug", ⟨none, none, some .zeroArgumentsValidator, some .noop⟩),
    ("pause", ⟨none, none, some .zeroArgumentsValidator, some .noop⟩),
    ("rate", ⟨none, none, some .singleArgumentValidator, some .rateParse⟩),
    ("timewarp", ⟨none, none, some .zeroOrOneArgumentValidator, some .timewarpParser⟩),
    ("transmit", ⟨none, none, none, none⟩),
    ("tutorial", ⟨none, none, some .zeroArgumentsValidator, some .noop⟩),
    ("moveDataBlock", ⟨none, none, some .singleArgumentValidator, some .noop⟩),
    ("`", ⟨none, none, some .singleArgumentValidator, some .rateParse⟩) ]

/-- `aliasToRootCommand(where, commandAlias)` from `CommandDefinition.js`:
`_findKey(where, (command) => command.aliases.indexOf(commandAlias) !== -1)`.
Lodash `_findKey` scans entries in insertion order and returns the first
key whose predicate is truthy, or `undefined` (`none`) when none is.  When
an entry has no `aliases` field the predicate evaluates
`undefined.indexOf`, which throws a `TypeError`. -/
def aliasToRootCommand (wh : List (String × CommandDef)) (commandAlias : String) :
    Except JsError (Option String) :=
  match wh with
  | [] => .ok none
  | (key, command) :: rest =>
    match command.aliases with
    | none => .error (.typeErrorUndefinedAccess "indexOf")
    | some al =>
      if commandAlias ∈ al then .ok (some key)
      else aliasToRootCommand rest commandAlias

/-- JavaScript property lookup `map[key]` on a command map, returning
`none` for `undefined` (unknown key). -/
def mapFind (m : List (String × CommandDef)) (key : String) : Option CommandDef :=
  (m.find? (fun e => e.1 == key)).map (fun e => e.2)

/-- Modelled from the spec: the numeric helper `convertStringToNumber` from
`utilities/unitConverters.js` is outside the snapshot; the spec treats it
as one of the "numeric/unit-conversion helpers used by individual argument
parsers" and pins only that `"50"` becomes the number `50`, not the string
`"50"`.  Modelled as decimal string-to-number conversion, `NaN` when the
value is not a string of digits. -/
def convertStringToNumber (v : JsVal) : JsVal :=
  match v with
  | .str s =>
    if s ≠ "" ∧ s.data.all Char.isDigit then
      .num (Int.ofNat (s.data.foldl (fun a c => a * 10 + (c.toNat - 48)) 0))
    else .nan
  | _ => .nan

/-- Interpretation of the validator names.
`zeroArgumentsValidator`, `singleArgumentValidator` and
`zeroOrOneArgumentValidator` are modelled from the spec as the arity
checks their names state (`validate(parsedArgs) -> validatedArgs`,
throwing a `ValidationError` on an arity mismatch).  The command-specific
validators (`altitudeValidator`, `headingValidator`, ...) live in
`ArgumentValidators.js`, outside the snapshot, and the spec specifies for
them only the pass-or-error contract; they are modelled as pass-through. -/
def runValidator (f : Validator) (v : JsVal) : Except JsError JsVal :=
  match f with
  | .zeroArgumentsValidator =>
    match v with
    | .arr [] => .ok v
    | _ => .error (.validationError "zero arguments expected")
  | .singleArgumentValidator =>
    match v with
    | .arr [_] => .ok v
    | _ => .error (.validationError "exactly one argument expected")
  | .zeroOrOneArgumentValidator =>
    match v with
    | .arr [] => .ok v
    | .arr [_] => .ok v
    | .arr _ => .error (.validationError "zero or one argument expected")
    | _ => .error (.validationError "zero or one argument expected")
  | _ => .ok v

/-- Interpretation of the parser names.

From the source (`CommandDefinition.js`):
  * `noop` is `(args) => args`;
  * `ilsParse` is the inline `(args) => [null, args[0]]` of the `ils` entry;
  * `speedParse` / `rateParse` are the inline
    `(arg) => [convertStringToNumber(arg)]` of the `speed` and `rate`
    entries.

Modelled from the spec (bodies in `ArgumentParsers.js`, outside the
snapshot):
  * `timewarpParser` follows the system-command contract
    `parse(tokens) -> parsedArgs`, converting its argument tokens to
    numbers (`"timewarp 50"` must yield args `[50]` as a number);
  * `headingParser`, `altitudeParser`, `holdParser`,
    `optionalAltitudeParser` and `crossingParser` follow the
    entity-command dual-return contract
    `parse(tokens) -> (parsedArgs, remainingTokens)`: the tail they
    receive starts with the alias token itself, they consume the alias
    token plus the sub-command's own argument token and return the
    unconsumed remainder (the spec pins `"fh 030 sp 250"`: the heading
    sub-command consumes its own tokens and leaves `"sp 250"`). -/
def runArgParse (p : ArgParser) (v : JsVal) : Except JsError JsVal :=
  match p with
  | .noop => .ok v
  | .ilsParse => .ok (.arr [.null, jsIndex v 0])
  | .speedParse => .ok (.arr [convertStringToNumber v])
  | .rateParse => .ok (.arr [convertStringToNumber v])
  | .timewarpParser =>
    match v with
    | .arr l => .ok (.arr (l.map convertStringToNumber))
    | _ => .ok v
  | _ =>
    match v with
    | .arr l => .ok (.arr [.arr ((l.drop 1).take 1), .arr (l.drop 2)])
    | _ => .ok v

/-- Call the `parse` field of a command definition; an absent field is
`undefined`, and calling `undefined` throws a `TypeError`. -/
def callParse (p : Option ArgParser) (v : JsVal) : Except JsError JsVal :=
  match p with
  | none => .error (.typeErrorNotAFunction "parse")
  | some pt => runArgParse pt v

/-- Call the `validate` field of a command definition; an absent field is
`undefined`, and calling `undefined` throws a `TypeError`. -/
def callValidate (f : Option Validator) (v : JsVal) : Except JsError JsVal :=
  match f with
  | none => .error (.typeErrorNotAFunction "validate")
  | some ft => runValidator ft v

/-- The `Command` class of `Command.js`: a pure data holder built by
`new Command(name, commandType, callsign, args)`. -/
structure Command where
  name : String
  commandType : String
  callsign : String
  args : JsVal

/-- `Command#nameAndArgs`: the read-only projection
`[this.name, ...this.args]` (spreading a non-array `args` is not exercised
by the parser, which always stores an array; modelled as the singleton in
that case). -/
def Command.nameAndArgs (c : Command) : List JsVal :=
  match c.args with
  | .arr l => .str c.name :: l
  | v => [.str c.name, v]

/-- `CommandParser._isSystemCommand(token)`:
`token in SYSTEM_COMMAND_MAP`, i.e. a key-existence check. -/
def CommandParser.isSystemCommand (token : String) : Bool :=
  (SYSTEM_COMMAND_MAP.find? (fun e => e.1 == token)).isSome

/-- `CommandParser._parseSystemCommand(tokens)`:

```
const commandName = tokens[0];
const argTokens = _tail(tokens);
const rootCmd = aliasToRootCommand(SYSTEM_COMMAND_MAP, commandName);
const parsedArgs = SYSTEM_COMMAND_MAP[rootCmd].parse(argTokens);
const validatedArgs = SYSTEM_COMMAND_MAP[rootCmd].validate(parsedArgs);
return new Command(rootCmd, 'system', '', validatedArgs);
```

When `rootCmd` is `undefined` (or not a key), `SYSTEM_COMMAND_MAP[rootCmd]`
is `undefined` and the `.parse` access throws a `TypeError`. -/
def CommandParser.parseSystemCommand (tokens : List String) :
    Except JsError (Option Command) :=
  let commandName := tokens.headD ""
  let argTokens := tokens.tail
  match aliasToRootCommand SYSTEM_COMMAND_MAP commandName with
  | .error e => .error e
  | .ok none => .error (.typeErrorUndefinedAccess "parse")
  | .ok (some rootCmd) =>
    match mapFind SYSTEM_COMMAND_MAP rootCmd with
    | none => .error (.typeErrorUndefinedAccess "parse")
    | some d =>
      match callParse d.parse (.arr (argTokens.map JsVal.str)) with
      | .error e => .error e
      | .ok parsedArgs =>
        match callValidate d.validate parsedArgs with
        | .error e => .error e
        | .ok validatedArgs => .ok (some ⟨rootCmd, "system", "", validatedArgs⟩)

/-- `CommandParser._parseAircraftCommand(tokens)`:

```
const callsign = tokens[0];
let tail = _tail(tokens);
while (tail.length > 0) {
    const commandName = tail[0];
    const rootCmd = aliasToRootCommand(AIRCRAFT_COMMAND_MAP, commandName);
    const [parsedArgs, tmp] = AIRCRAFT_COMMAND_MAP[rootCmd].parse(tail);
    tail = tmp;
    const validatedArgs = AIRCRAFT_COMMAND_MAP[rootCmd].validate(parsedArgs);
    return new Command(rootCmd, 'aircraft', callsign, validatedArgs);
}
```

The loop body ends in an unconditional `return`, so at most one iteration
runs: the function returns the first sub-command's record (the
`tail = tmp` assignment is dead) or, when the tail is empty, falls
through the loop and returns `undefined` (`none`).  The destructuring
`const [parsedArgs, tmp] = ...` takes elements `0` and `1` of whatever
the entry's `parse` returned. -/
def CommandParser.parseAircraftCommand (tokens : List String) :
    Except JsError (Option Command) :=
  let callsign := tokens.headD ""
  match tokens.tail with
  | [] => .ok none
  | commandName :: rest =>
    match aliasToRootCommand AIRCRAFT_COMMAND_MAP commandName with
    | .error e => .error e
    | .ok none => .error (.typeErrorUndefinedAccess "parse")
    | .ok (some rootCmd) =>
      match mapFind AIRCRAFT_COMMAND_MAP rootCmd with
      | none => .error (.typeErrorUndefinedAccess "parse")
      | some d =>
        match callParse d.parse (.arr ((commandName :: rest).map JsVal.str)) with
        | .error e => .error e
        | .ok pres =>
          match callValidate d.validate (jsIndex pres 0) with
          | .error e => .error e
          | .ok validatedArgs =>
            .ok (some ⟨rootCmd, "aircraft", callsign, validatedArgs⟩)

/-- `CommandParser.parse(rawInput)`: throw a `TypeError` unless the input
is a string; tokenize; dispatch on whether the first token is a key of the
system registry. -/
def CommandParser.parse (rawInput : JsVal) : Except JsError (Option Command) :=
  match rawInput with
  | .str s =>
    let tokens := tokenize s
    let callsignOrSystemCommand := tokens.headD ""
    if CommandParser.isSystemCommand callsignOrSystemCommand then
      CommandParser.parseSystemCommand tokens
    else
      CommandParser.parseAircraftCommand tokens
  | _ => .error .typeErrorNonStringInput

/-! ## Helper lemmas about the tokenizer and the error discipline -/

/-- `split` never returns an empty list of segments. -/
theorem splitTokens_ne_nil (cs : List Char) : splitTokens cs ≠ [] := by
  induction cs with
  | nil => simp [splitTokens]
  | cons c cs ih =>
    simp only [splitTokens]
    split
    · simp
    · split
      · simp
      · simp

/-- A string without the separator splits into the single segment that is
the whole string. -/
theorem splitTokens_of_no_space (cs : List Char) (h : ' ' ∉ cs) :
    splitTokens cs = [cs] := by
  induction cs with
  | nil => rfl
  | cons c cs ih =>
    simp only [List.mem_cons, not_or] at h
    simp only [splitTokens, if_neg (Ne.symm h.1)]
    rw [ih h.2]

/-- Two consecutive separators put an empty segment strictly after the
first segment of the split. -/
theorem mem_tail_splitTokens_double_space (l r : List Char) :
    [] ∈ (splitTokens (l ++ ' ' :: ' ' :: r)).tail := by
  induction l with
  | nil =>
    simp [splitTokens]
  | cons c cs ih =>
    simp only [List.cons_append, splitTokens]
    split
    · simpa using List.mem_of_mem_tail ih
    · cases hs : splitTokens (cs ++ ' ' :: ' ' :: r) with
      | nil => exact absurd hs (splitTokens_ne_nil _)
      | cons t ts =>
        rw [hs] at ih
        simpa using ih

/-- The only error `aliasToRootCommand` can throw is the `TypeError` from
evaluating `undefined.indexOf` on an entry without an `aliases` field. -/
theorem aliasToRootCommand_error_eq (m : List (String × CommandDef)) (a : String)
    (e : JsError) (h : aliasToRootCommand m a = .error e) :
    e = .typeErrorUndefinedAccess "indexOf" := by
  induction m with
  | nil => simp [aliasToRootCommand] at h
  | cons hd tl ih =>
    simp only [aliasToRootCommand] at h
    split at h
    · exact (Except.error.inj h).symm
    · split at h
      · exact absurd h (by simp)
      · exact ih h

/-- Every registered argument parser returns normally on every value. -/
theorem runArgParse_ok (p : ArgParser) (v : JsVal) : ∃ w, runArgParse p v = .ok w := by
  cases p <;> first
    | exact ⟨_, rfl⟩
    | (cases v <;> exact ⟨_, rfl⟩)

/-- Calling the `parse` field can only fail with the `TypeError` for a
missing field. -/
theorem callParse_error_eq (p : Option ArgParser) (v : JsVal) (e : JsError)
    (h : callParse p v = .error e) : e = .typeErrorNotAFunction "parse" := by
  cases p with
  | none => exact (Except.error.inj h).symm
  | some pt =>
    obtain ⟨w, hw⟩ := runArgParse_ok pt v
    rw [callParse, hw] at h
    exact absurd h (by simp)

/-- A validator can only fail with a validation error. -/
theorem runValidator_error_eq (f : Validator) (v : JsVal) (e : JsError)
    (h : runValidator f v = .error e) : ∃ m, e = .validationError m := by
  cases f <;> simp only [runValidator] at h <;>
    first
      | (exact absurd h (by simp))
      | (split at h <;>
          first
            | exact ⟨_, (Except.error.inj h).symm⟩
            | exact absurd h (by simp))

/-- Calling the `validate` field can only fail with the missing-field
`TypeError` or a validation error. -/
theorem callValidate_error_eq (f : Option Validator) (v : JsVal) (e : JsError)
    (h : callValidate f v = .error e) :
    e = .typeErrorNotAFunction "validate" ∨ ∃ m, e = .validationError m := by
  cases f with
  | none => exact Or.inl (Except.error.inj h).symm
  | some ft => exact Or.inr (runValidator_error_eq ft v e h)

/-- The system-command path never raises the non-string-input `TypeError`. -/
theorem parseSystemCommand_ne (tokens : List String) :
    CommandParser.parseSystemCommand tokens ≠ .error .typeErrorNonStringInput := by
  intro hc
  unfold CommandParser.parseSystemCommand at hc
  dsimp only at hc
  split at hc
  · next e he =>
      rw [aliasToRootCommand_error_eq _ _ _ he] at hc
      exact JsError.noConfusion (Except.error.inj hc)
  · exact JsError.noConfusion (Except.error.inj hc)
  · split at hc
    · exact JsError.noConfusion (Except.error.inj hc)
    · split at hc
      · next e he =>
          rw [callParse_error_eq _ _ _ he] at hc
          exact JsError.noConfusion (Except.error.inj hc)
      · split at hc
        · next e he =>
            rcases callValidate_error_eq _ _ _ he with h1 | ⟨m, h1⟩ <;>
              (rw [h1] at hc; exact JsError.noConfusion (Except.error.inj hc))
        · exact Except.noConfusion hc

/-- The aircraft-command path never raises the non-string-input
`TypeError`. -/
theorem parseAircraftCommand_ne (tokens : List String) :
    CommandParser.parseAircraftCommand tokens ≠ .error .typeErrorNonStringInput := by
  intro hc
  unfold CommandParser.parseAircraftCommand at hc
  dsimp only at hc
  split at hc
  · exact Except.noConfusion hc
  · split at hc
    · next e he =>
        rw [aliasToRootCommand_error_eq _ _ _ he] at hc
        exact JsError.noConfusion (Except.error.inj hc)
    · exact JsError.noConfusion (Except.error.inj hc)
    · split at hc
      · exact JsError.noConfusion (Except.error.inj hc)
      · split at hc
        · next e he =>
            rw [callParse_error_eq _ _ _ he] at hc
            exact JsError.noConfusion (Except.error.inj hc)
        · split at hc
          · next e he =>
              rcases callValidate_error_eq _ _ _ he with h1 | ⟨m, h1⟩ <;>
                (rw [h1] at hc; exact JsError.noConfusion (Except.error.inj hc))
          · exact Except.noConfusion hc

/-! ## Claim theorems -/

/-- C1: the claim states that `"AA777 fh 030 sp 250"` yields exactly two
Command records (heading from `fh`, then speed from `sp`).  The code does
not: the `while` loop of `_parseAircraftCommand` ends its body with an
unconditional `return`, so parsing yields exactly one Command record — the
heading record built from the `fh` segment (with the callsign lower-cased
to `"aa777"`), and the `sp 250` segment is silently dropped.  This theorem
evaluates the parser at the claim's input and exhibits that single
record; the result type `Option Command` itself rules out a second
record. -/
theorem spec_c1_chained_entity_single_record :
    CommandParser.parse (.str "AA777 fh 030 sp 250") =
      .ok (some ⟨"heading", "aircraft", "aa777", .arr [.str "030"]⟩) := rfl

/-- C2: the claim states that `"timewarp 50"` yields one Command record
with category System, canonical name `timewarp` and args `[50]`.  The code
instead throws: `_parseSystemCommand` calls
`aliasToRootCommand(SYSTEM_COMMAND_MAP, "timewarp")`, and since no entry
of `SYSTEM_COMMAND_MAP` has an `aliases` field the very first predicate
evaluation `command.aliases.indexOf(...)` is a property access on
`undefined` — a thrown `TypeError`, before any argument parsing. -/
theorem spec_c2_timewarp_throws :
    CommandParser.parse (.str "timewarp 50") =
      .error (.typeErrorUndefinedAccess "indexOf") := rfl

/-- C3 counterexample: the claim promises a typed `UnknownCommandError`
for an unresolvable sub-command token.  The code defines no such error
class: for `"aa777 zzz"` (whose sub-command token `zzz` is no alias of any
aircraft command) the parser evaluates
`AIRCRAFT_COMMAND_MAP[undefined].parse` and throws the generic `TypeError`
of a property access on `undefined` instead. -/
theorem spec_c3_counterexample :
    CommandParser.parse (.str "aa777 zzz") =
      .error (.typeErrorUndefinedAccess "parse") := rfl

/-- C3 amended: for every input line classified as an aircraft command
whose first sub-command token resolves to no canonical command in the
aircraft registry, parse fails by throwing the generic `TypeError` of
dispatching on an undefined command definition (not a typed
`UnknownCommandError`, which the code does not define), and never returns
a silently-empty result. -/
theorem spec_c3_amended (s : String) (t c : String) (rest : List String)
    (htok : tokenize s = t :: c :: rest)
    (hsys : CommandParser.isSystemCommand t = false)
    (hres : aliasToRootCommand AIRCRAFT_COMMAND_MAP c = .ok none) :
    CommandParser.parse (.str s) = .error (.typeErrorUndefinedAccess "parse") := by
  simp only [CommandParser.parse, htok, List.headD, hsys, Bool.false_eq_true,
    if_false, CommandParser.parseAircraftCommand, List.tail, hres]

/-- C3 witness: the amended theorem applied at the concrete input
`"aa777 zzz"`, whose sub-command token `zzz` resolves to no canonical
aircraft command. -/
theorem spec_c3_amended_witness :
    CommandParser.parse (.str "aa777 zzz") =
        .error (.typeErrorUndefinedAccess "parse") ∧
      aliasToRootCommand AIRCRAFT_COMMAND_MAP "zzz" = .ok none :=
  ⟨spec_c3_amended "aa777 zzz" "aa777" "zzz" [] rfl rfl rfl, rfl⟩

/-- C4: every non-string input makes `parse` throw the dedicated
non-string `TypeError` (raised by the explicit `_isString` guard before
the tokenizer runs — in the embedding the string case is the only one that
ever reaches `tokenize`), and no string input ever produces that error:
for strings the guard passes and tokenization proceeds. -/
theorem spec_c4_input_type_check :
    (∀ v : JsVal, isString v = false →
      CommandParser.parse v = .error .typeErrorNonStringInput)
    ∧ (∀ s : String,
      CommandParser.parse (.str s) ≠ .error .typeErrorNonStringInput) := by
  constructor
  · intro v hv
    cases v <;> first | rfl | simp [isString] at hv
  · intro s
    simp only [CommandParser.parse]
    split
    · exact parseSystemCommand_ne _
    · exact parseAircraftCommand_ne _

/-- C4 witness: the theorem applied at the non-string input `null` and at
a concrete string input. -/
theorem spec_c4_input_type_check_witness :
    CommandParser.parse JsVal.null = .error .typeErrorNonStringInput ∧
      CommandParser.parse (.str "timewarp") ≠ .error .typeErrorNonStringInput :=
  ⟨spec_c4_input_type_check.1 JsVal.null rfl,
   spec_c4_input_type_check.2 "timewarp"⟩

/-- C5: tokenization lower-cases the whole raw string and splits it on the
single ASCII space with no trimming of repeated spaces.  First conjunct:
every input containing two consecutive spaces produces an empty-string
token in the token stream.  Second conjunct: the spec's edge case
`"AA777  fh 030"` tokenizes to `["aa777", "", "fh", "030"]` (lower-cased,
with the empty token kept).  Third conjunct: that empty token propagates
into resolution, where it resolves to no aircraft command and the parse
ends in the undefined-dispatch `TypeError`. -/
theorem spec_c5_tokenization :
    (∀ (s : String) (l r : List Char),
      s.data = l ++ ' ' :: ' ' :: r → "" ∈ tokenize s)
    ∧ tokenize "AA777  fh 030" = ["aa777", "", "fh", "030"]
    ∧ CommandParser.parse (.str "AA777  fh 030") =
        .error (.typeErrorUndefinedAccess "parse") := by
  refine ⟨?_, rfl, rfl⟩
  intro s l r h
  have hdata : (jsToLower s).data = s.data.map jsToLowerChar := rfl
  have hsp : jsToLowerChar ' ' = ' ' := rfl
  have hlow : (jsToLower s).data =
      l.map jsToLowerChar ++ ' ' :: ' ' :: r.map jsToLowerChar := by
    rw [hdata, h]; simp [hsp]
  have hmem : [] ∈ splitTokens (jsToLower s).data := by
    rw [hlow]
    exact List.mem_of_mem_tail (mem_tail_splitTokens_double_space _ _)
  exact List.mem_map_of_mem String.mk hmem

/-- C5 witness: the first conjunct applied at the concrete double-space
input `"AA777  fh 030"`. -/
theorem spec_c5_tokenization_witness :
    "" ∈ tokenize "AA777  fh 030" :=
  spec_c5_tokenization.1 "AA777  fh 030"
    ['A', 'A', '7', '7', '7'] ['f', 'h', ' ', '0', '3', '0'] (by decide)

/-- C6: the claim states that, for every registry, the resolver returns
the canonical name whose alias set contains the token and `undefined`
otherwise.  On the aircraft registry it does (first and second conjunct:
the alias `fh` resolves to `heading`, the non-alias `zzz` resolves to
`undefined`).  On the system registry it never does: no entry of
`SYSTEM_COMMAND_MAP` carries an `aliases` field, so the lookup for any
token — here `timewarp`, for which the claim requires `undefined` — throws
the `TypeError` of `undefined.indexOf` instead (third conjunct). -/
theorem spec_c6_resolver_eval :
    aliasToRootCommand AIRCRAFT_COMMAND_MAP "fh" = .ok (some "heading")
    ∧ aliasToRootCommand AIRCRAFT_COMMAND_MAP "zzz" = .ok none
    ∧ aliasToRootCommand SYSTEM_COMMAND_MAP "timewarp" =
        .error (.typeErrorUndefinedAccess "indexOf") :=
  ⟨rfl, rfl, rfl⟩

set_option maxRecDepth 4000 in
/-- C7: within each registry the alias sets of distinct command
definitions are pairwise disjoint — no token appears in the alias sets of
two different entries.  For the aircraft registry this is a check over all
pairs of its 33 entries; for the system registry it holds vacuously, since
no entry has an alias set (an absent `aliases` field contributes the empty
set). -/
theorem spec_c7_alias_disjoint :
    AIRCRAFT_COMMAND_MAP.Pairwise
      (fun a b => ∀ t, t ∈ a.2.aliases.getD [] → t ∉ b.2.aliases.getD [])
    ∧ SYSTEM_COMMAND_MAP.Pairwise
      (fun a b => ∀ t, t ∈ a.2.aliases.getD [] → t ∉ b.2.aliases.getD []) := by
  constructor
  · decide
  · decide

/-- C8: the claim states that every canonical command has a non-null
`validate`, and that exemption-set commands such as `transmit` carry an
explicit identity function for `validate` and `parse` rather than absent
fields.  The code violates this: in both system registries the `transmit`
entry is the empty object, with both fields absent (first two conjuncts),
while every aircraft entry does carry both fields (third conjunct). -/
theorem spec_c8_transmit_missing_fields :
    mapFind SYSTEM_COMMAND_MAP "transmit" = some ⟨none, none, none, none⟩
    ∧ mapFind SYSTEM_COMMAND_MAP_V2 "transmit" = some ⟨none, none, none, none⟩
    ∧ AIRCRAFT_COMMAND_MAP.all
        (fun e => e.2.validate.isSome && e.2.parse.isSome) = true :=
  ⟨rfl, rfl, rfl⟩

/-- C9: parsing is case-insensitive — `"AA777 FH 030"` and
`"aa777 fh 030"` parse to identical results, namely the single heading
Command record (with the callsign lower-cased by tokenization). -/
theorem spec_c9_case_insensitive :
    CommandParser.parse (.str "AA777 FH 030") =
        CommandParser.parse (.str "aa777 fh 030")
    ∧ CommandParser.parse (.str "aa777 fh 030") =
        .ok (some ⟨"heading", "aircraft", "aa777", .arr [.str "030"]⟩) :=
  ⟨rfl, rfl⟩

/-- C10: every input that tokenizes to a single token that is not a key of
the system registry (e.g. a bare callsign with no sub-command tokens) makes
`parse` return `undefined`: the aircraft path's working tail is empty, the
loop never runs, and no Command record is produced and no error is
raised. -/
theorem spec_c10_single_token_undefined (s : String) (t : String)
    (htok : tokenize s = [t])
    (hsys : CommandParser.isSystemCommand t = false) :
    CommandParser.parse (.str s) = .ok none := by
  simp only [CommandParser.parse, htok, List.headD, hsys, Bool.false_eq_true,
    if_false, CommandParser.parseAircraftCommand, List.tail]

/-- C10 witness: the theorem applied at the bare callsign `"aa777"`. -/
theorem spec_c10_single_token_undefined_witness :
    CommandParser.parse (.str "aa777") = .ok none :=
  spec_c10_single_token_undefined "aa777" "aa777" rfl rfl
